import Mathlib

/-!
Verification of the pagination/cursor adapter in `pkg/adapter/datasource.go`.

The Go source is shallowly embedded below:
* machine `int64` values are modelled as `Int` with an explicit wrap
  (`wrap64`) at every operation where Go arithmetic can overflow;
* `strconv.FormatInt(_, 10)` and `strconv.ParseInt(_, 10, 64)` are modelled
  by `formatInt` and `parseInt64`;
* `encoding/json.Unmarshal` into `*DatasourceResponse` is modelled by a small
  executable JSON scanner (`parseJ`) plus a field decoder (`applyFields`)
  following the documented behaviour of Go's decoder for this shape
  (whitespace handling, `null` into a pointer yields `nil`, unknown object
  keys are ignored, JSON keys match struct tags case-insensitively, integer
  fields are decoded with `ParseInt` on the raw literal, the first decoding
  error is reported); record values are kept as opaque JSON values, since the
  adapter returns them unchanged;
* effects of `GetPage` (the HTTP transport, request construction failure,
  body reads, and `res.Body.Close()`) are made explicit: the transport is an
  injected function from the outbound URL to an outcome, and the returned
  `GetPageOutcome` additionally records which URLs were requested and
  whether the response body was closed;
* a Go nil-pointer dereference is modelled by the explicit `panicked`
  outcome.
-/

set_option autoImplicit false

/-! ## 64-bit integer arithmetic -/

/-- Smallest value of Go's `int64`. -/
def int64Min : Int := -(2 ^ 63)

/-- Largest value of Go's `int64`. -/
def int64Max : Int := 2 ^ 63 - 1

/-- Wrap-around of Go `int64` arithmetic: reduces an integer into
`[-2^63, 2^63)` the way Go's two's-complement addition does. -/
def wrap64 (i : Int) : Int := (i + 2 ^ 63) % 2 ^ 64 - 2 ^ 63

/-! ## Decimal formatting (`strconv.FormatInt(i, 10)`) -/

/-- Decimal digit characters, as in Go's `strconv` digits table. -/
def digitChar : Nat → Char
  | 0 => '0' | 1 => '1' | 2 => '2' | 3 => '3' | 4 => '4'
  | 5 => '5' | 6 => '6' | 7 => '7' | 8 => '8' | 9 => '9'
  | _ => '*'

/-- Accumulates the base-10 digits of `n` (most significant first) in front
of `acc`; `fuel ≥ n` guarantees completion. -/
def natDigitsAux : Nat → Nat → List Nat → List Nat
  | 0, _, acc => acc
  | fuel + 1, n, acc => if n = 0 then acc else natDigitsAux fuel (n / 10) (n % 10 :: acc)

/-- Base-10 digits of `n`, most significant first; `0` yields `[0]`. -/
def natDigits (n : Nat) : List Nat :=
  if n = 0 then [0] else natDigitsAux n n []

/-- Numeric value of a most-significant-first digit list. -/
def digitsVal (ds : List Nat) : Nat :=
  ds.foldl (fun a d => 10 * a + d) 0

/-- Model of Go's `strconv.FormatInt(i, 10)`: minus sign for negative values
followed by the decimal digits of the absolute value. -/
def formatInt (i : Int) : String :=
  if i < 0 then String.mk ('-' :: (natDigits i.natAbs).map digitChar)
  else String.mk ((natDigits i.natAbs).map digitChar)

/-! ## Decimal parsing (`strconv.ParseInt(s, 10, 64)`) -/

/-- Whether `c` is an ASCII decimal digit. -/
def isDigitChar (c : Char) : Bool := 48 ≤ c.toNat && c.toNat ≤ 57

/-- Numeric value of an ASCII decimal digit character. -/
def digitVal (c : Char) : Nat := c.toNat - 48

/-- Parses a non-empty all-digit character list to its numeric value. -/
def parseNatDigits (cs : List Char) : Option Nat :=
  if cs.isEmpty then none
  else if cs.all isDigitChar then some (digitsVal (cs.map digitVal))
  else none

/-- Go's `ParseInt(_, 10, 64)` range check: values outside
`[int64Min, int64Max]` are a range error. -/
def inRange64 (v : Int) : Option Int :=
  if int64Min ≤ v ∧ v ≤ int64Max then some v else none

/-- Model of Go's `strconv.ParseInt(s, 10, 64)` on the character list of
`s`: optional sign, at least one decimal digit, nothing else, and the value
must fit in `int64`. `none` models a non-nil `error`. -/
def parseInt64Chars : List Char → Option Int
  | [] => none
  | '-' :: rest => (parseNatDigits rest).bind (fun n => inRange64 (-(n : Int)))
  | '+' :: rest => (parseNatDigits rest).bind (fun n => inRange64 (n : Int))
  | cs => (parseNatDigits cs).bind (fun n => inRange64 (n : Int))

/-- Model of Go's `strconv.ParseInt(s, 10, 64)`. -/
def parseInt64 (s : String) : Option Int := parseInt64Chars s.data

/-! ## Error model (`framework.Error` and `api_adapter_v1` error codes) -/

/-- The machine-readable error codes of the adapter framework referenced by
this adapter and by the spec's error taxonomy. -/
inductive ErrorCode where
  | internal
  | datasourceFailed
  | invalidCursor
  | invalidPageRequestConfig
deriving DecidableEq

/-- Model of `framework.Error`: a human-readable message plus a
machine-readable code. -/
structure FrameworkError where
  Message : String
  Code : ErrorCode
deriving DecidableEq

/-! ## Cursor codec -/

/-- Embedding of `parseCursor` (datasource.go:161-177): the empty cursor is
offset 0; otherwise the cursor must parse as a base-10 `int64`, and a parse
failure is an `ERROR_CODE_INVALID_PAGE_REQUEST_CONFIG` error. -/
def parseCursor (cursor : String) : Except FrameworkError Int :=
  if cursor = "" then .ok 0
  else
    match parseInt64 cursor with
    | none =>
      .error ⟨"Request cursor conversion to int64 failed.", .invalidPageRequestConfig⟩
    | some parsedOffset => .ok parsedOffset

/-- Embedding of the `nextCursor` computation in `ParseResponse`
(datasource.go:197-200): the empty string when `more` is false, otherwise
`strconv.FormatInt(offset+limit, 10)` where `offset+limit` is Go `int64`
addition (it wraps on overflow). -/
def encodeCursor (offset limit : Int) (more : Bool) : String :=
  if more then formatInt (wrap64 (offset + limit)) else ""

/-! ## JSON values and scanner (model of `encoding/json` syntax) -/

/-- JSON values. Number literals are kept raw, as Go's decoder does before
converting them for the target field type. -/
inductive JSON where
  | null
  | bool (b : Bool)
  | num (lit : String)
  | str (s : String)
  | arr (elems : List JSON)
  | obj (members : List (String × JSON))

/-- JSON insignificant whitespace, as accepted by Go's scanner. -/
def isWs (c : Char) : Bool := c = ' ' || c = '\t' || c = '\n' || c = '\r'

/-- Drops leading JSON whitespace. -/
def skipWs : List Char → List Char
  | [] => []
  | c :: cs => if isWs c then skipWs cs else c :: cs

/-- Splits a character list into its leading run of decimal digits and the
rest. -/
def takeDigits : List Char → List Char × List Char
  | [] => ([], [])
  | c :: cs =>
    if isDigitChar c then
      let (ds, rest) := takeDigits cs
      (c :: ds, rest)
    else ([], c :: cs)

/-- Scans the optional exponent part of a JSON number literal; `acc` holds
the literal scanned so far. -/
def scanExpPart (acc : List Char) (cs : List Char) : Except String (String × List Char) :=
  match cs with
  | c :: rest =>
    if c = 'e' ∨ c = 'E' then
      let (sgn, rest1) : List Char × List Char :=
        match rest with
        | '+' :: r => (['+'], r)
        | '-' :: r => (['-'], r)
        | _ => ([], rest)
      let (ds, rest2) := takeDigits rest1
      if ds.isEmpty then .error "invalid character in exponent of numeric literal"
      else .ok (String.mk (acc ++ c :: (sgn ++ ds)), rest2)
    else .ok (String.mk acc, c :: rest)
  | [] => .ok (String.mk acc, [])

/-- Scans the optional fraction part of a JSON number literal, then the
exponent part. -/
def scanFracPart (acc : List Char) (cs : List Char) : Except String (String × List Char) :=
  match cs with
  | '.' :: rest =>
    let (ds, rest2) := takeDigits rest
    if ds.isEmpty then .error "invalid character after decimal point in numeric literal"
    else scanExpPart (acc ++ '.' :: ds) rest2
  | _ => scanExpPart acc cs

/-- Scans a JSON number literal (`cs` starts at its first character):
optional minus, integer part without leading zeros, optional fraction and
exponent. Returns the raw literal and the rest of the input. -/
def scanNumber (cs : List Char) : Except String (String × List Char) :=
  let (sign, cs1) : List Char × List Char :=
    match cs with
    | '-' :: rest => (['-'], rest)
    | _ => ([], cs)
  match cs1 with
  | [] => .error "unexpected end of JSON input"
  | c :: rest =>
    if c = '0' then scanFracPart (sign ++ ['0']) rest
    else if isDigitChar c then
      let (ds, rest2) := takeDigits rest
      scanFracPart (sign ++ c :: ds) rest2
    else .error "invalid character in numeric literal"

/-- Hexadecimal digit value, for `\\u` escapes. -/
def hexVal (c : Char) : Option Nat :=
  if 48 ≤ c.toNat ∧ c.toNat ≤ 57 then some (c.toNat - 48)
  else if 97 ≤ c.toNat ∧ c.toNat ≤ 102 then some (c.toNat - 87)
  else if 65 ≤ c.toNat ∧ c.toNat ≤ 70 then some (c.toNat - 55)
  else none

/-- Scans the remainder of a JSON string literal (the opening quote is
already consumed); `acc` holds the decoded characters in reverse. -/
def scanStringChars : List Char → List Char → Except String (String × List Char)
  | [], _ => .error "unexpected end of JSON input"
  | c :: rest, acc =>
    if c = '"' then .ok (String.mk acc.reverse, rest)
    else if c = '\\' then
      match rest with
      | [] => .error "unexpected end of JSON input"
      | e :: rest2 =>
        if e = '"' then scanStringChars rest2 ('"' :: acc)
        else if e = '\\' then scanStringChars rest2 ('\\' :: acc)
        else if e = '/' then scanStringChars rest2 ('/' :: acc)
        else if e = 'b' then scanStringChars rest2 (Char.ofNat 8 :: acc)
        else if e = 'f' then scanStringChars rest2 (Char.ofNat 12 :: acc)
        else if e = 'n' then scanStringChars rest2 ('\n' :: acc)
        else if e = 'r' then scanStringChars rest2 ('\r' :: acc)
        else if e = 't' then scanStringChars rest2 ('\t' :: acc)
        else if e = 'u' then
          match rest2 with
          | h1 :: h2 :: h3 :: h4 :: rest3 =>
            match hexVal h1, hexVal h2, hexVal h3, hexVal h4 with
            | some a, some b, some c2, some d =>
              scanStringChars rest3 (Char.ofNat (((a * 16 + b) * 16 + c2) * 16 + d) :: acc)
            | _, _, _, _ => .error "invalid character in string escape"
          | _ => .error "unexpected end of JSON input"
        else .error "invalid character in string escape"
    else if c.toNat < 32 then .error "invalid character in string literal"
    else scanStringChars rest (c :: acc)

/-- Parsing modes of the JSON scanner: a single value, the elements of an
array after `[`, or the members of an object after the opening brace. -/
inductive PMode where
  | value
  | arrElems (acc : List JSON)
  | objMembers (acc : List (String × JSON))

/-- The JSON scanner. `fuel` bounds the recursion; `jsonUnmarshal` supplies
enough fuel for any input, so the fuel-exhaustion branch is unreachable
there. Returns the parsed value and the unconsumed rest of the input. -/
def parseJ : Nat → PMode → List Char → Except String (JSON × List Char)
  | 0, _, _ => .error "JSON input too deeply nested"
  | fuel + 1, .value, cs =>
    match skipWs cs with
    | [] => .error "unexpected end of JSON input"
    | c :: rest =>
      if c = 'n' then
        match rest with
        | 'u' :: 'l' :: 'l' :: rest2 => .ok (.null, rest2)
        | _ => .error "invalid character in literal null"
      else if c = 't' then
        match rest with
        | 'r' :: 'u' :: 'e' :: rest2 => .ok (.bool true, rest2)
        | _ => .error "invalid character in literal true"
      else if c = 'f' then
        match rest with
        | 'a' :: 'l' :: 's' :: 'e' :: rest2 => .ok (.bool false, rest2)
        | _ => .error "invalid character in literal false"
      else if c = '"' then
        match scanStringChars rest [] with
        | .error e => .error e
        | .ok (s, rest2) => .ok (.str s, rest2)
      else if c = '-' || isDigitChar c then
        match scanNumber (c :: rest) with
        | .error e => .error e
        | .ok (lit, rest2) => .ok (.num lit, rest2)
      else if c = '[' then
        match skipWs rest with
        | ']' :: rest2 => .ok (.arr [], rest2)
        | cs2 => parseJ fuel (.arrElems []) cs2
      else if c = Char.ofNat 123 then
        match skipWs rest with
        | c2 :: rest2 =>
          if c2 = Char.ofNat 125 then .ok (.obj [], rest2)
          else parseJ fuel (.objMembers []) (c2 :: rest2)
        | [] => .error "unexpected end of JSON input"
      else .error "invalid character looking for beginning of value"
  | fuel + 1, .arrElems acc, cs =>
    match parseJ fuel .value cs with
    | .error e => .error e
    | .ok (v, rest) =>
      match skipWs rest with
      | ',' :: rest2 => parseJ fuel (.arrElems (acc ++ [v])) rest2
      | ']' :: rest2 => .ok (.arr (acc ++ [v]), rest2)
      | _ => .error "invalid character after array element"
  | fuel + 1, .objMembers acc, cs =>
    match skipWs cs with
    | [] => .error "unexpected end of JSON input"
    | c :: rest =>
      if c = '"' then
        match scanStringChars rest [] with
        | .error e => .error e
        | .ok (k, rest2) =>
          match skipWs rest2 with
          | ':' :: rest3 =>
            match parseJ fuel .value rest3 with
            | .error e => .error e
            | .ok (v, rest4) =>
              match skipWs rest4 with
              | ',' :: rest5 => parseJ fuel (.objMembers (acc ++ [(k, v)])) rest5
              | c2 :: rest5 =>
                if c2 = Char.ofNat 125 then .ok (.obj (acc ++ [(k, v)]), rest5)
                else .error "invalid character after object member value"
              | [] => .error "unexpected end of JSON input"
          | _ => .error "invalid character after object key"
      else .error "invalid character looking for beginning of object key"

/-- Model of the syntactic part of `encoding/json.Unmarshal`: scan one JSON
value and require only whitespace after it. The `error` payload is the
decode diagnostic. -/
def jsonUnmarshal (s : String) : Except String JSON :=
  match parseJ (s.length + 1) .value s.data with
  | .error e => .error e
  | .ok (v, rest) =>
    match skipWs rest with
    | [] => .ok v
    | _ => .error "invalid character after top-level value"

/-! ## Decoding into `DatasourceResponse` -/

/-- A generic record, Go's `map[string]any`: an insert-ordered key-value map
with opaque JSON values (the adapter returns record contents unchanged). -/
abbrev Record := List (String × JSON)

/-- Embedding of `DatasourceResponse` (datasource.go:53-64). `Objects` is
`Option` to keep Go's distinction between a nil and an empty slice. -/
structure DatasourceResponse where
  Objects : Option (List Record)
  More : Bool
  Limit : Int
  Offset : Int

/-- ASCII lowercase of a character, for case-insensitive key matching. -/
def lowerChar (c : Char) : Char :=
  if 65 ≤ c.toNat ∧ c.toNat ≤ 90 then Char.ofNat (c.toNat + 32) else c

/-- ASCII lowercase of a string; models the case folding Go's decoder uses
to match JSON keys against struct tags (the tags here are ASCII). -/
def lowerStr (s : String) : String := String.mk (s.data.map lowerChar)

/-- Map insertion with overwrite, Go's `m[k] = v`. -/
def setKey : Record → String → JSON → Record
  | [], k, v => [(k, v)]
  | (k', v') :: rest, k, v =>
    if k' = k then (k, v) :: rest else (k', v') :: setKey rest k v

/-- Decodes the members of a JSON object into a `map[string]any`. -/
def objToRecord : List (String × JSON) → Record → Record
  | [], m => m
  | (k, v) :: rest, m => objToRecord rest (setKey m k v)

/-- Decodes one element of the `teams` array into `map[string]any`: a JSON
object or `null` only. -/
def decodeRecord : JSON → Except String Record
  | .null => .ok []
  | .obj ms => .ok (objToRecord ms [])
  | _ => .error "json: cannot unmarshal value into Go value of type map of string to interface"

/-- Decodes the `teams` array elementwise, reporting the first error. -/
def decodeRecords : List JSON → Except String (List Record)
  | [] => .ok []
  | v :: rest =>
    match decodeRecord v with
    | .error e => .error e
    | .ok r =>
      match decodeRecords rest with
      | .error e => .error e
      | .ok rs => .ok (r :: rs)

/-- Decodes one object member into the matching `DatasourceResponse` field,
per Go's rules for this struct: keys match tags case-insensitively, unknown
keys are ignored, `null` leaves non-slice fields unchanged and sets the
slice field to nil, and `int64` fields are decoded with
`ParseInt(lit, 10, 64)` on the raw number literal. -/
def applyField (d : DatasourceResponse) (k : String) (v : JSON) :
    Except String DatasourceResponse :=
  if lowerStr k = "teams" then
    match v with
    | .null => .ok { d with Objects := none }
    | .arr es =>
      match decodeRecords es with
      | .error e => .error e
      | .ok rs => .ok { d with Objects := some rs }
    | _ => .error "json: cannot unmarshal value into Go value of type slice of map"
  else if lowerStr k = "more" then
    match v with
    | .null => .ok d
    | .bool b => .ok { d with More := b }
    | _ => .error "json: cannot unmarshal value into Go value of type bool"
  else if lowerStr k = "limit" then
    match v with
    | .null => .ok d
    | .num lit =>
      match parseInt64 lit with
      | some n => .ok { d with Limit := n }
      | none => .error ("json: cannot unmarshal number " ++ lit ++ " into Go value of type int64")
    | _ => .error "json: cannot unmarshal value into Go value of type int64"
  else if lowerStr k = "offset" then
    match v with
    | .null => .ok d
    | .num lit =>
      match parseInt64 lit with
      | some n => .ok { d with Offset := n }
      | none => .error ("json: cannot unmarshal number " ++ lit ++ " into Go value of type int64")
    | _ => .error "json: cannot unmarshal value into Go value of type int64"
  else .ok d

/-- Folds `applyField` over the object members, reporting the first error. -/
def applyFields (d : DatasourceResponse) : List (String × JSON) →
    Except String DatasourceResponse
  | [] => .ok d
  | (k, v) :: rest =>
    match applyField d k v with
    | .error e => .error e
    | .ok d' => applyFields d' rest

/-- Model of `json.Unmarshal(body, &data)` with `data : *DatasourceResponse`
(datasource.go:180-182): a JSON `null` sets the pointer to nil (`ok none`),
a JSON object is decoded field by field into a zero-valued struct, and any
other value is a type error. -/
def unmarshalDSR (body : String) : Except String (Option DatasourceResponse) :=
  match jsonUnmarshal body with
  | .error e => .error e
  | .ok .null => .ok none
  | .ok (.obj ms) =>
    match applyFields ⟨none, false, 0, 0⟩ ms with
    | .error e => .error e
    | .ok d => .ok (some d)
  | .ok _ => .error "json: cannot unmarshal value into Go value of type adapter.DatasourceResponse"

/-! ## `ParseResponse` -/

/-- The possible outcomes of `ParseResponse`: a `framework.Error`, a Go
runtime panic (nil-pointer dereference), or the records plus next cursor. -/
inductive ParseOutcome where
  | failure (e : FrameworkError)
  | panicked
  | success (objects : Option (List Record)) (nextCursor : String)

/-- Embedding of `ParseResponse` (datasource.go:179-202). An unmarshal error
becomes an `Internal` error wrapping the decode diagnostic; if unmarshalling
leaves the `*DatasourceResponse` nil (JSON `null` body), the subsequent
`data.More` access dereferences a nil pointer, modelled by `panicked`;
otherwise the objects are returned unchanged together with the next cursor
computed from `data.Offset`, `data.Limit` and `data.More`. -/
def ParseResponse (body : String) : ParseOutcome :=
  match unmarshalDSR body with
  | .error diag =>
    .failure ⟨"Failed to unmarshal the datasource response: " ++ diag ++ ".", .internal⟩
  | .ok none => .panicked
  | .ok (some data) =>
    .success data.Objects (encodeCursor data.Offset data.Limit data.More)

/-! ## `GetPage` -/

/-- The fields of `framework.Request` used by this adapter. -/
structure Request where
  BaseURL : String
  EntityExternalID : String
  PageSize : Int
  Cursor : String
  HTTPAuthorization : String

/-- The fields of `framework.Response` populated by this adapter. `Objects`
is nil (`none`) unless a page was parsed. -/
structure Response where
  StatusCode : Int
  RetryAfterHeader : String
  Objects : Option (List Record)
  NextCursor : String

/-- Outcome of one `d.Client.Do(req)` call: a transport-level error, or a
response carrying the status code, the `Retry-After` header value
(`""` when absent, as with `Header.Get`), and the result of reading the
body (`none` models an `io.ReadAll` failure). -/
inductive HTTPOutcome where
  | transportError
  | response (statusCode : Int) (retryAfter : String) (bodyRead : Option String)

/-- What `GetPage` returns: a `framework.Error`, a `framework.Response`, or
a propagated Go panic. -/
inductive GetPageResult where
  | failure (e : FrameworkError)
  | success (r : Response)
  | panicked

/-- `GetPage`'s result together with the observable effects the claims are
about: the URLs actually requested through the transport, and whether
`res.Body.Close()` ran before returning. -/
structure GetPageOutcome where
  result : GetPageResult
  calls : List String
  bodyClosed : Bool

/-- The outbound URL built by `GetPage` (datasource.go:101):
`fmt.Sprintf("%s/%s?offset=%d&limit=%d", ...)`. -/
def requestURL (r : Request) (offset : Int) : String :=
  r.BaseURL ++ "/" ++ r.EntityExternalID ++ "?offset=" ++ formatInt offset ++
    "&limit=" ++ formatInt r.PageSize

/-- Embedding of `GetPage` (datasource.go:92-159). `newRequestErr` models
failure of `http.NewRequestWithContext` for the built URL; `transport`
models `d.Client.Do`. The context, the fixed 5-second timeout and the
request headers have no bearing on the claims and are elided. The
`defer res.Body.Close()` at datasource.go:140 is registered only after the
non-200 early return, so `bodyClosed` is false on that path; it runs on the
read-failure, parse-failure, panic and success paths. -/
def GetPage (request : Request) (newRequestErr : String → Bool)
    (transport : String → HTTPOutcome) : GetPageOutcome :=
  match parseCursor request.Cursor with
  | .error offsetErr => ⟨.failure offsetErr, [], false⟩
  | .ok offset =>
    let url := requestURL request offset
    if newRequestErr url then
      ⟨.failure ⟨"Failed to create HTTP request to datasource.", .internal⟩, [], false⟩
    else
      match transport url with
      | .transportError =>
        ⟨.failure ⟨"Failed to send request to datasource.", .internal⟩, [url], false⟩
      | .response statusCode retryAfter bodyRead =>
        let response : Response :=
          { StatusCode := statusCode, RetryAfterHeader := retryAfter
            Objects := none, NextCursor := "" }
        if statusCode ≠ 200 then
          ⟨.success response, [url], false⟩
        else
          match bodyRead with
          | none =>
            ⟨.failure ⟨"Failed to read response body.", .datasourceFailed⟩, [url], true⟩
          | some body =>
            match ParseResponse body with
            | .failure parseErr => ⟨.failure parseErr, [url], true⟩
            | .panicked => ⟨.panicked, [url], true⟩
            | .success objects nextCursor =>
              ⟨.success { response with Objects := objects, NextCursor := nextCursor },
                [url], true⟩

/-! ## Digit-list lemmas -/

/-- Folding the base-10 accumulation from `a` shifts the result by
`a * 10 ^ length`. -/
theorem foldl_digits_shift (ds : List Nat) (a : Nat) :
    ds.foldl (fun x d => 10 * x + d) a =
      a * 10 ^ ds.length + ds.foldl (fun x d => 10 * x + d) 0 := by
  induction ds generalizing a with
  | nil => simp
  | cons d ds ih =>
    simp only [List.foldl_cons, List.length_cons, mul_zero, zero_add]
    rw [ih (10 * a + d), ih d]
    ring

/-- Value of the digit list produced by `natDigitsAux`, given enough fuel. -/
theorem digitsVal_natDigitsAux (fuel : Nat) :
    ∀ (n : Nat) (acc : List Nat), n ≤ fuel →
      digitsVal (natDigitsAux fuel n acc) = n * 10 ^ acc.length + digitsVal acc := by
  induction fuel with
  | zero =>
    intro n acc h
    interval_cases n
    simp [natDigitsAux]
  | succ fuel ih =>
    intro n acc h
    by_cases hn : n = 0
    · simp [natDigitsAux, hn]
    · rw [natDigitsAux, if_neg hn]
      rw [ih (n / 10) (n % 10 :: acc)
        (Nat.le_of_lt_succ (Nat.lt_of_lt_of_le (Nat.div_lt_self (Nat.pos_of_ne_zero hn) (by norm_num)) h))]
      have hcons : digitsVal (n % 10 :: acc) = (n % 10) * 10 ^ acc.length + digitsVal acc := by
        unfold digitsVal
        simp only [List.foldl_cons]
        rw [foldl_digits_shift acc (10 * 0 + n % 10)]
        ring_nf
      rw [hcons, List.length_cons, pow_succ]
      conv_rhs => rw [← Nat.div_add_mod n 10]
      ring

/-- `natDigits` and `digitsVal` are inverse. -/
theorem digitsVal_natDigits (n : Nat) : digitsVal (natDigits n) = n := by
  unfold natDigits
  by_cases hn : n = 0
  · simp [hn, digitsVal]
  · rw [if_neg hn, digitsVal_natDigitsAux n n [] le_rfl]
    simp [digitsVal]

/-- Every digit produced by `natDigitsAux` is below 10. -/
theorem natDigitsAux_lt_ten (fuel : Nat) :
    ∀ (n : Nat) (acc : List Nat), (∀ d ∈ acc, d < 10) →
      ∀ d ∈ natDigitsAux fuel n acc, d < 10 := by
  induction fuel with
  | zero => intro n acc h; simpa [natDigitsAux] using h
  | succ fuel ih =>
    intro n acc h
    by_cases hn : n = 0
    · simpa [natDigitsAux, hn] using h
    · rw [natDigitsAux, if_neg hn]
      exact ih (n / 10) (n % 10 :: acc)
        (by intro d hd; rcases List.mem_cons.mp hd with h1 | h2
            · simpa [h1] using Nat.mod_lt n (by norm_num)
            · exact h d h2)

/-- Every digit of `natDigits n` is below 10. -/
theorem natDigits_lt_ten (n : Nat) : ∀ d ∈ natDigits n, d < 10 := by
  unfold natDigits
  by_cases hn : n = 0
  · simp [hn]
  · rw [if_neg hn]
    exact natDigitsAux_lt_ten n n [] (by simp)

/-- `natDigitsAux` never shortens its accumulator. -/
theorem natDigitsAux_length (fuel : Nat) :
    ∀ (n : Nat) (acc : List Nat), acc.length ≤ (natDigitsAux fuel n acc).length := by
  induction fuel with
  | zero => intro n acc; simp [natDigitsAux]
  | succ fuel ih =>
    intro n acc
    by_cases hn : n = 0
    · simp [natDigitsAux, hn]
    · rw [natDigitsAux, if_neg hn]
      exact Nat.le_trans (by simp) (ih (n / 10) (n % 10 :: acc))

/-- `natDigits` always produces at least one digit. -/
theorem natDigits_ne_nil (n : Nat) : natDigits n ≠ [] := by
  unfold natDigits
  by_cases hn : n = 0
  · simp [hn]
  · rw [if_neg hn]
    obtain ⟨m, rfl⟩ : ∃ m, n = m + 1 :=
      ⟨n - 1, (Nat.succ_pred_eq_of_pos (Nat.pos_of_ne_zero hn)).symm⟩
    rw [natDigitsAux, if_neg hn]
    intro hcontra
    have := natDigitsAux_length m ((m + 1) / 10) [(m + 1) % 10]
    rw [hcontra] at this
    simp at this

/-! ## `formatInt` and `parseInt64` round-trip -/

/-- `digitVal` inverts `digitChar` on digits. -/
theorem digitVal_digitChar (d : Nat) (h : d < 10) : digitVal (digitChar d) = d := by
  interval_cases d <;> rfl

/-- `digitChar` of a digit satisfies `isDigitChar`. -/
theorem isDigitChar_digitChar (d : Nat) (h : d < 10) : isDigitChar (digitChar d) = true := by
  interval_cases d <;> rfl

/-- `digitChar` never yields a minus sign. -/
theorem digitChar_ne_dash (d : Nat) : digitChar d ≠ '-' := by
  unfold digitChar; split <;> decide

/-- `digitChar` never yields a plus sign. -/
theorem digitChar_ne_plus (d : Nat) : digitChar d ≠ '+' := by
  unfold digitChar; split <;> decide

/-- Mapping to characters and back is the identity on digit lists. -/
theorem map_digitVal_digitChar (ds : List Nat) (h : ∀ d ∈ ds, d < 10) :
    (ds.map digitChar).map digitVal = ds := by
  induction ds with
  | nil => rfl
  | cons d ds ih =>
    simp only [List.map_cons, List.cons.injEq]
    exact ⟨digitVal_digitChar d (h d (by simp)), ih (fun x hx => h x (by simp [hx]))⟩

/-- `parseNatDigits` recovers the value of a rendered digit list. -/
theorem parseNatDigits_map (ds : List Nat) (h1 : ds ≠ []) (h2 : ∀ d ∈ ds, d < 10) :
    parseNatDigits (ds.map digitChar) = some (digitsVal ds) := by
  unfold parseNatDigits
  rw [if_neg (by simp [List.isEmpty_iff, h1])]
  rw [if_pos]
  · rw [List.map_map]
    have heq : (ds.map (digitVal ∘ digitChar)) = ds := by
      rw [← List.map_map]; exact map_digitVal_digitChar ds h2
    rw [heq]
  · rw [List.all_eq_true]
    intro c hc
    rw [List.mem_map] at hc
    obtain ⟨d, hd, rfl⟩ := hc
    exact isDigitChar_digitChar d (h2 d hd)

/-- On input that starts with neither sign, `parseInt64Chars` takes the
digits arm. -/
theorem parseInt64Chars_digits_arm (c : Char) (cs : List Char) (h1 : c ≠ '-') (h2 : c ≠ '+') :
    parseInt64Chars (c :: cs) = (parseNatDigits (c :: cs)).bind (fun n => inRange64 (n : Int)) := by
  unfold parseInt64Chars
  split
  · simp_all
  · rename_i heq; rw [List.cons.injEq] at heq; exact absurd heq.1 h1
  · rename_i heq; rw [List.cons.injEq] at heq; exact absurd heq.1 h2
  · rfl

/-- `ParseInt` inverts `FormatInt` on every `int64` value. -/
theorem parseInt64_formatInt (i : Int) (h1 : int64Min ≤ i) (h2 : i ≤ int64Max) :
    parseInt64 (formatInt i) = some i := by
  unfold parseInt64 formatInt
  by_cases hneg : i < 0
  · rw [if_pos hneg]
    show parseInt64Chars ('-' :: (natDigits i.natAbs).map digitChar) = some i
    have habs : ((i.natAbs : Nat) : Int) = -i := Int.ofNat_natAbs_of_nonpos (le_of_lt hneg)
    rw [show parseInt64Chars ('-' :: (natDigits i.natAbs).map digitChar) =
        (parseNatDigits ((natDigits i.natAbs).map digitChar)).bind
          (fun n => inRange64 (-(n : Int))) from rfl]
    rw [parseNatDigits_map _ (natDigits_ne_nil _) (natDigits_lt_ten _)]
    rw [digitsVal_natDigits]
    rw [Option.some_bind]
    rw [habs, neg_neg]
    unfold inRange64
    rw [if_pos ⟨h1, h2⟩]
  · rw [if_neg hneg]
    push_neg at hneg
    obtain ⟨d0, ds, hds⟩ := List.exists_cons_of_ne_nil (natDigits_ne_nil i.natAbs)
    show parseInt64Chars ((natDigits i.natAbs).map digitChar) = some i
    rw [hds, List.map_cons]
    rw [parseInt64Chars_digits_arm _ _ (digitChar_ne_dash d0) (digitChar_ne_plus d0)]
    rw [← List.map_cons, ← hds]
    rw [parseNatDigits_map _ (natDigits_ne_nil _) (natDigits_lt_ten _)]
    rw [digitsVal_natDigits]
    rw [Option.some_bind]
    rw [Int.natAbs_of_nonneg hneg]
    unfold inRange64
    rw [if_pos ⟨h1, h2⟩]

/-- `FormatInt` never renders an empty string. -/
theorem formatInt_ne_empty (i : Int) : formatInt i ≠ "" := by
  unfold formatInt
  intro hcontra
  by_cases hneg : i < 0
  · rw [if_pos hneg] at hcontra
    have hmap := congrArg String.data hcontra
    simp at hmap
  · rw [if_neg hneg] at hcontra
    have hmap := congrArg String.data hcontra
    simp at hmap
    exact natDigits_ne_nil i.natAbs hmap

/-- `wrap64` is the identity on values already in `int64` range. -/
theorem wrap64_eq_of_range (i : Int) (h1 : int64Min ≤ i) (h2 : i ≤ int64Max) : wrap64 i = i := by
  unfold wrap64 int64Min int64Max at *
  have hp63 : (2:Int) ^ 63 = 9223372036854775808 := by norm_num
  have hp64 : (2:Int) ^ 64 = 18446744073709551616 := by norm_num
  rw [hp63, hp64] at *
  omega

/-! ## `parseCursor` and `GetPage` helper lemmas -/

/-- A non-empty cursor that does not parse yields the
`InvalidPageRequestConfig` error of datasource.go:170-173. -/
theorem parseCursor_none (s : String) (h1 : s ≠ "") (h2 : parseInt64 s = none) :
    parseCursor s =
      Except.error ⟨"Request cursor conversion to int64 failed.",
        ErrorCode.invalidPageRequestConfig⟩ := by
  unfold parseCursor
  rw [if_neg h1, h2]

/-- A cursor that parses yields its parsed value, whatever its sign. -/
theorem parseCursor_some (s : String) (v : Int) (h : parseInt64 s = some v) :
    parseCursor s = Except.ok v := by
  have hs : s ≠ "" := by
    intro hcontra
    rw [hcontra] at h
    exact Option.noConfusion (h.symm.trans rfl)
  unfold parseCursor
  rw [if_neg hs, h]

/-- Once the cursor resolves and request construction succeeds, `GetPage`
performs exactly one transport call, at the built URL, on every branch. -/
theorem getPage_calls (r : Request) (nerr : String → Bool) (t : String → HTTPOutcome) (v : Int)
    (hcur : parseCursor r.Cursor = Except.ok v) (hnerr : nerr (requestURL r v) = false) :
    (GetPage r nerr t).calls = [requestURL r v] := by
  unfold GetPage
  rw [hcur]
  simp only [hnerr, Bool.false_eq_true, if_false]
  cases t (requestURL r v) with
  | transportError => rfl
  | response statusCode retryAfter bodyRead =>
    by_cases hst : statusCode ≠ 200
    · simp only [if_pos hst]
    · simp only [if_neg hst]
      cases bodyRead with
      | none => rfl
      | some body =>
        dsimp only
        cases ParseResponse body with
        | failure e => rfl
        | panicked => rfl
        | success objects nextCursor => rfl

/-! ## Model sanity checks against the spec's scenarios -/

/-- Scenario 2 of the spec: two team objects with `more=true`, `limit=2`,
`offset=0` parse to exactly those two records and next cursor "2". -/
theorem parseResponse_scenario_two :
    ParseResponse "\x7b\"teams\":[\x7b\"id\":\"1\"\x7d,\x7b\"id\":\"2\"\x7d],\"more\":true,\"limit\":2,\"offset\":0\x7d"
      = ParseOutcome.success (some [[("id", JSON.str "1")], [("id", JSON.str "2")]]) "2" := rfl

/-- Scenario 3 of the spec: an empty page with `more=false` parses to zero
records and the empty next cursor. -/
theorem parseResponse_scenario_three :
    ParseResponse "\x7b\"teams\":[],\"more\":false,\"limit\":10,\"offset\":20\x7d"
      = ParseOutcome.success (some []) "" := rfl

/-- Any unmarshal diagnostic is wrapped verbatim inside the `Internal`
error message of `ParseResponse`. -/
theorem parseResponse_unmarshal_error (body diag : String)
    (h : unmarshalDSR body = Except.error diag) :
    ParseResponse body =
      ParseOutcome.failure
        ⟨"Failed to unmarshal the datasource response: " ++ diag ++ ".", ErrorCode.internal⟩ := by
  unfold ParseResponse
  rw [h]

/-- A witness for the previous lemma at a malformed body. -/
theorem parseResponse_unmarshal_error_witness :
    ParseResponse "not json" =
      ParseOutcome.failure
        ⟨"Failed to unmarshal the datasource response: " ++
            "invalid character in literal null" ++ ".", ErrorCode.internal⟩ :=
  parseResponse_unmarshal_error "not json" "invalid character in literal null" rfl

/-- `ParseResponse` dereferences a nil pointer exactly when unmarshalling
left the envelope pointer nil, i.e. on a JSON `null` body. -/
theorem parseResponse_panicked_iff (body : String) :
    ParseResponse body = ParseOutcome.panicked ↔ unmarshalDSR body = Except.ok none := by
  unfold ParseResponse
  cases h : unmarshalDSR body with
  | error e => simp
  | ok od => cases od <;> simp

/-- A witness for the previous equivalence at the body `null`. -/
theorem parseResponse_panicked_iff_witness :
    ParseResponse "NULL" ≠ ParseOutcome.panicked :=
  fun hcontra => Except.noConfusion ((parseResponse_panicked_iff "NULL").mp hcontra |>.symm.trans rfl)

/-! ## Claim theorems -/

/-- C1 (amended): for all non-negative `int64` `offset` and `limit` whose
sum still fits in `int64`, decoding the cursor produced by
`encode(offset, limit, true)` yields `offset + limit` with no error. When
the sum overflows `int64` the encoded cursor decodes to the wrapped value
instead (see the counterexample). -/
theorem c1_cursor_roundtrip (offset limit : Int) (h1 : 0 ≤ offset) (h2 : 0 ≤ limit)
    (h3 : offset + limit ≤ int64Max) :
    parseCursor (encodeCursor offset limit true) = Except.ok (offset + limit) := by
  have hmin : int64Min ≤ offset + limit :=
    le_trans (by norm_num [int64Min]) (add_nonneg h1 h2)
  have henc : encodeCursor offset limit true = formatInt (wrap64 (offset + limit)) := rfl
  rw [henc, wrap64_eq_of_range _ hmin h3]
  exact parseCursor_some _ _ (parseInt64_formatInt _ hmin h3)

/-- C1 witness: the round-trip at offset 3, limit 4. -/
theorem c1_cursor_roundtrip_witness :
    parseCursor (encodeCursor 3 4 true) = Except.ok ((3 : Int) + 4) :=
  c1_cursor_roundtrip 3 4 (by norm_num) (by norm_num) (by norm_num [int64Max])

/-- C1 counterexample: at the non-negative `int64` pair
`offset = limit = 2^62` the `int64` sum wraps, so decoding the encoded
cursor yields `-2^63`, not `offset + limit = 2^63`. -/
theorem c1_counterexample :
    parseCursor (encodeCursor (2 ^ 62) (2 ^ 62) true) = Except.ok (-(2 ^ 63) : Int) ∧
      (-(2 ^ 63) : Int) ≠ 2 ^ 62 + 2 ^ 62 :=
  ⟨rfl, by decide⟩

/-- C2 (amended): every non-empty cursor string that does not parse as a
base-10 signed 64-bit integer makes `parseCursor` return an error whose
machine-readable code is `InvalidPageRequestConfig` (not `InvalidCursor`
as the claim stated). -/
theorem c2_invalid_cursor_code (s : String) (h1 : s ≠ "") (h2 : parseInt64 s = none) :
    parseCursor s =
      Except.error ⟨"Request cursor conversion to int64 failed.",
        ErrorCode.invalidPageRequestConfig⟩ :=
  parseCursor_none s h1 h2

/-- C2 witness: the cursor `abc`. -/
theorem c2_invalid_cursor_code_witness :
    parseCursor "abc" =
      Except.error ⟨"Request cursor conversion to int64 failed.",
        ErrorCode.invalidPageRequestConfig⟩ :=
  c2_invalid_cursor_code "abc" (by decide) rfl

/-- C2 counterexample: decoding `abc` fails with code
`InvalidPageRequestConfig`, which is not `InvalidCursor`. -/
theorem c2_counterexample :
    parseCursor "abc" =
        Except.error ⟨"Request cursor conversion to int64 failed.",
          ErrorCode.invalidPageRequestConfig⟩ ∧
      ErrorCode.invalidPageRequestConfig ≠ ErrorCode.invalidCursor :=
  ⟨rfl, by decide⟩

/-- C3: when the transport returns a non-200 status, `GetPage` returns a
response carrying that status code, the `Retry-After` header value as the
retry hint, no records, and no error. -/
theorem c3_non_success_passthrough (r : Request) (nerr : String → Bool)
    (t : String → HTTPOutcome) (offset statusCode : Int) (retryAfter : String)
    (bodyRead : Option String)
    (hcur : parseCursor r.Cursor = Except.ok offset)
    (hnerr : nerr (requestURL r offset) = false)
    (ht : t (requestURL r offset) = HTTPOutcome.response statusCode retryAfter bodyRead)
    (hstatus : statusCode ≠ 200) :
    (GetPage r nerr t).result =
      GetPageResult.success
        { StatusCode := statusCode, RetryAfterHeader := retryAfter
          Objects := none, NextCursor := "" } := by
  unfold GetPage
  rw [hcur]
  simp only [hnerr, Bool.false_eq_true, if_false, ht]
  rw [if_pos hstatus]

/-- C3 witness: a 429 response with header `Retry-After: 30` yields
`{statusCode: 429, retryHint: "30", records: nil}` and no error
(Scenario 4 of the spec). -/
theorem c3_non_success_passthrough_witness :
    (GetPage ⟨"https://api.example.com", "teams", 10, "", "token"⟩ (fun _ => false)
        (fun _ => HTTPOutcome.response 429 "30" none)).result =
      GetPageResult.success
        { StatusCode := 429, RetryAfterHeader := "30", Objects := none, NextCursor := "" } :=
  c3_non_success_passthrough _ _ _ 0 429 "30" none rfl rfl rfl (by decide)

/-- C4: when the request cursor fails to decode, `GetPage` returns the
`InvalidPageRequestConfig` error immediately, with the transport never
invoked (the recorded call list is empty). -/
theorem c4_invalid_cursor_no_io (r : Request) (nerr : String → Bool) (t : String → HTTPOutcome)
    (h1 : r.Cursor ≠ "") (h2 : parseInt64 r.Cursor = none) :
    GetPage r nerr t =
      ⟨GetPageResult.failure ⟨"Request cursor conversion to int64 failed.",
          ErrorCode.invalidPageRequestConfig⟩, [], false⟩ := by
  unfold GetPage
  rw [parseCursor_none r.Cursor h1 h2]

/-- C4 witness: the cursor `notanumber` (Scenario 5 of the spec). -/
theorem c4_invalid_cursor_no_io_witness :
    GetPage ⟨"https://api.example.com", "teams", 10, "notanumber", "token"⟩ (fun _ => false)
        (fun _ => HTTPOutcome.response 200 "" (some "")) =
      ⟨GetPageResult.failure ⟨"Request cursor conversion to int64 failed.",
          ErrorCode.invalidPageRequestConfig⟩, [], false⟩ :=
  c4_invalid_cursor_no_io _ _ _ (by decide) rfl

/-- C5 (amended): the cursor encoding returns the empty string whenever
`hasMore` is false, and when `hasMore` is true and `offset + limit` fits in
`int64` it returns the base-10 string representation of `offset + limit`;
on overflow it renders the wrapped `int64` sum instead (see the
counterexample). -/
theorem c5_terminal_and_encode (offset limit : Int) :
    encodeCursor offset limit false = "" ∧
      (int64Min ≤ offset + limit → offset + limit ≤ int64Max →
        encodeCursor offset limit true = formatInt (offset + limit)) := by
  refine ⟨rfl, fun hmin hmax => ?_⟩
  have henc : encodeCursor offset limit true = formatInt (wrap64 (offset + limit)) := rfl
  rw [henc, wrap64_eq_of_range _ hmin hmax]

/-- C5 witness: offset 20, limit 10 (Scenario 3's terminal page, and the
non-terminal rendering). -/
theorem c5_terminal_and_encode_witness :
    encodeCursor 20 10 false = "" ∧ encodeCursor 20 10 true = formatInt (20 + 10) :=
  ⟨(c5_terminal_and_encode 20 10).1,
    (c5_terminal_and_encode 20 10).2 (by norm_num [int64Min]) (by norm_num [int64Max])⟩

/-- C5 counterexample: at `offset = limit = 2^62` with `hasMore = true` the
encoding renders the wrapped sum `-2^63`, not the base-10 representation
`9223372036854775808` of `offset + limit`. -/
theorem c5_counterexample :
    encodeCursor (2 ^ 62) (2 ^ 62) true = "-9223372036854775808" ∧
      encodeCursor (2 ^ 62) (2 ^ 62) true ≠ "9223372036854775808" :=
  ⟨rfl, by decide⟩

/-- C6: evaluation of `ParseResponse` at the failing input — the body
` null ` is well-formed JSON that does not conform to the envelope shape,
yet `ParseResponse` does not fail with an `Internal` error: unmarshalling
leaves the envelope pointer nil and the `data.More` access panics. -/
theorem c6_nonconforming_null_panics : ParseResponse " null " = ParseOutcome.panicked := rfl

/-- C7: the empty cursor decodes to offset 0 with no error, and a request
with empty cursor and page size 10 sends exactly one outbound call whose
URL carries the query parameters `offset=0&limit=10` (Scenario 1 of the
spec). -/
theorem c7_empty_cursor_offset_zero :
    parseCursor "" = Except.ok 0 ∧
      ∀ (r : Request) (nerr : String → Bool) (t : String → HTTPOutcome),
        r.Cursor = "" → r.PageSize = 10 → nerr (requestURL r 0) = false →
        (GetPage r nerr t).calls =
          [r.BaseURL ++ "/" ++ r.EntityExternalID ++ "?offset=0&limit=10"] := by
  refine ⟨rfl, fun r nerr t hrc hps hnerr => ?_⟩
  rw [getPage_calls r nerr t 0 (by rw [hrc]; rfl) hnerr]
  unfold requestURL
  rw [hps]
  have heq : r.BaseURL ++ "/" ++ r.EntityExternalID ++ "?offset=" ++ formatInt 0 ++
      "&limit=" ++ formatInt 10 =
      r.BaseURL ++ "/" ++ r.EntityExternalID ++ "?offset=0&limit=10" := by
    apply String.ext
    simp only [String.data_append, List.append_assoc]
    rfl
  rw [heq]

/-- C7 witness: a concrete request with empty cursor and page size 10. -/
theorem c7_empty_cursor_offset_zero_witness :
    (GetPage ⟨"https://api.example.com", "teams", 10, "", "token"⟩ (fun _ => false)
        (fun _ => HTTPOutcome.transportError)).calls =
      ["https://api.example.com" ++ "/" ++ "teams" ++ "?offset=0&limit=10"] :=
  c7_empty_cursor_offset_zero.2 _ _ _ rfl rfl rfl

/-- C8: evaluation of `GetPage` at the failing input — on a non-200
response (status 429) `GetPage` returns without the response body having
been closed, because the `defer res.Body.Close()` is registered only after
the early return. -/
theorem c8_non200_body_not_closed :
    (GetPage ⟨"https://api.example.com", "teams", 10, "", "token"⟩ (fun _ => false)
        (fun _ => HTTPOutcome.response 429 "30" (some ""))).bodyClosed = false := rfl

/-- C9: evaluation of `ParseResponse` at the failing input — the valid JSON
body `null` unmarshals into a nil envelope pointer without error, and the
subsequent field access dereferences the nil pointer, so `ParseResponse` is
not total: it panics instead of returning an error or a result. -/
theorem c9_null_body_panics : ParseResponse "null" = ParseOutcome.panicked := rfl

/-- C10: cursor decoding performs no non-negativity check — every cursor
string that parses as a negative `int64` decodes to that negative offset
with no error, and `GetPage` then issues the outbound request with that
negative offset in the query string. -/
theorem c10_negative_cursor_accepted (s : String) (v : Int)
    (hparse : parseInt64 s = some v) (_hneg : v < 0) :
    parseCursor s = Except.ok v ∧
      ∀ (r : Request) (nerr : String → Bool) (t : String → HTTPOutcome),
        r.Cursor = s → nerr (requestURL r v) = false →
        (GetPage r nerr t).calls =
          [r.BaseURL ++ "/" ++ r.EntityExternalID ++ "?offset=" ++ formatInt v ++
            "&limit=" ++ formatInt r.PageSize] := by
  refine ⟨parseCursor_some s v hparse, fun r nerr t hrc hnerr => ?_⟩
  rw [getPage_calls r nerr t v (by rw [hrc]; exact parseCursor_some s v hparse) hnerr]
  rfl

/-- C10 witness: the cursor `-5` decodes to offset `-5` and the outbound
URL query carries `offset=-5`. -/
theorem c10_negative_cursor_accepted_witness :
    parseCursor "-5" = Except.ok (-5 : Int) ∧
      (GetPage ⟨"https://api.example.com", "teams", 10, "-5", "token"⟩ (fun _ => false)
          (fun _ => HTTPOutcome.transportError)).calls =
        ["https://api.example.com" ++ "/" ++ "teams" ++ "?offset=" ++ formatInt (-5) ++
          "&limit=" ++ formatInt 10] :=
  ⟨(c10_negative_cursor_accepted "-5" (-5) rfl (by decide)).1,
    (c10_negative_cursor_accepted "-5" (-5) rfl (by decide)).2 _ _ _ rfl rfl⟩
